import Mathlib

/-!
# Verification of the student-code competence-analysis pipeline

Shallow embedding of `evaluation-framework.py`: the `BasicPythonAnalyzer`,
the `RuleBasedPromptGenerator` and the `CompetenceEvaluator`, together with
the demonstration driver's sample snippets.

Modelling decisions, each noted again at its definition:

* The Python parser (`ast.parse`) is standard-library code external to the
  repository.  `analyze` therefore receives the parse outcome as an explicit
  argument of type `Except String PyNode`: `Except.ok tree` is a successful
  parse, `Except.error msg` a `SyntaxError` carrying the diagnostic `msg`.
* Python `float` arithmetic is embedded as exact rationals (`ℚ`).  Every
  number the program manipulates is of the form `k / 10` (complexity),
  `0.8` (confidence) or `sum / len` over small integers, and the only
  comparison performed is `score > 0.5`; for `k / 10.0` the IEEE-754 double
  rounding error is below `2⁻⁵²` and `5 / 10.0` is exact, so float and
  exact-rational evaluation decide every comparison in this program
  identically.
* Python exceptions are embedded as `Except.error`.
* String scanning (`in`, `split`, `str(list)`) is embedded on the
  character-list representation of `String`, mirroring Python semantics.
-/

deriving instance DecidableEq for Except

/-- Embedding of Python `pattern in s` prefix step: does `pat` occur at the
head of `s`? -/
def leadsWith : List Char → List Char → Bool
  | [], _ => true
  | _ :: _, [] => false
  | p :: ps, c :: cs => p == c && leadsWith ps cs

/-- Does `pat` occur contiguously anywhere inside `s`? -/
def occursWithin (pat : List Char) : List Char → Bool
  | [] => leadsWith pat []
  | c :: cs => leadsWith pat (c :: cs) || occursWithin pat cs

/-- Embedding of the Python substring test `pattern in s` (also of the
character test `c in s` when `pattern` has length one). -/
def pyIn (pattern s : String) : Bool :=
  occursWithin pattern.data s.data

/-- Split a character list at every newline, keeping empty pieces: the
behaviour of Python `code.split(chr(10))`. -/
def splitAtNewlines : List Char → List (List Char)
  | [] => [[]]
  | c :: cs =>
      if c == Char.ofNat 10 then [] :: splitAtNewlines cs
      else
        match splitAtNewlines cs with
        | [] => [[c]]
        | l :: ls => (c :: l) :: ls

/-- Embedding of `code.split(chr(10))` on `String`. -/
def pyLines (code : String) : List String :=
  (splitAtNewlines code.data).map String.mk

/-- Python `repr` of one of the strings this program renders.  Python picks
double quotes when the string itself holds a single quote; no entry this
analyzer produces on a path that reaches the generator rules contains a
quote character, and the phrases the rules search for contain none either,
so the single-quote rendering is observationally equivalent for every
substring test performed here. -/
def pyRepr (s : String) : String :=
  "'" ++ s ++ "'"

/-- Embedding of Python `str(xs)` for a list of strings `xs`:
`['a', 'b']`. -/
def pyStrOfList (xs : List String) : String :=
  "[" ++ String.intercalate ", " (xs.map pyRepr) ++ "]"

/-- Parse-tree nodes, abstracting the Python `ast` module to exactly the
distinctions `BasicPythonAnalyzer` makes with `isinstance`: `ast.For`,
`ast.While`, `ast.If`, `ast.FunctionDef` (which carries `.name`) and
`ast.Return`; every other node kind is `other`.  `children` collects all
child nodes of the node, in syntactic order (`ast.iter_child_nodes`). -/
inductive PyNode where
  | forNode (children : List PyNode)
  | whileNode (children : List PyNode)
  | ifNode (children : List PyNode)
  | functionDef (fname : String) (children : List PyNode)
  | returnNode (children : List PyNode)
  | other (children : List PyNode)

mutual

/-- Embedding of `ast.walk(node)`: the node itself and all of its
descendants.  Python's `ast.walk` yields them in breadth-first order; this
embedding uses depth-first preorder, which yields the same collection of
nodes, and every consumer in this program (a count and an existence test,
plus appends of one fixed string) is insensitive to the order. -/
def walk : PyNode → List PyNode
  | .forNode cs => .forNode cs :: walkAll cs
  | .whileNode cs => .whileNode cs :: walkAll cs
  | .ifNode cs => .ifNode cs :: walkAll cs
  | .functionDef f cs => .functionDef f cs :: walkAll cs
  | .returnNode cs => .returnNode cs :: walkAll cs
  | .other cs => .other cs :: walkAll cs

/-- `walk` of every node of a list, concatenated. -/
def walkAll : List PyNode → List PyNode
  | [] => []
  | n :: ns => walk n ++ walkAll ns

end

/-- Is the node an `ast.Return`? -/
def isReturnNode : PyNode → Bool
  | .returnNode _ => true
  | _ => false

/-- One step of the complexity loop of `_calculate_complexity`:
`+1` for `ast.For`, `ast.While`, `ast.If`; `+2` for `ast.FunctionDef`. -/
def complexityStep (c : Nat) : PyNode → Nat
  | .forNode _ => c + 1
  | .whileNode _ => c + 1
  | .ifNode _ => c + 1
  | .functionDef _ _ => c + 2
  | _ => c

/-- The raw accumulator value of `_calculate_complexity` after its loop
over `ast.walk(tree)`. -/
def complexityRaw (tree : PyNode) : Nat :=
  (walk tree).foldl complexityStep 0

/-- `BasicPythonAnalyzer._calculate_complexity`:
`min(complexity / 10.0, 1.0)` over the raw node count.  Python
`min(a, b)` is `a` when `a ≤ b` and `b` otherwise, written out as the
conditional, and the exact quotient `complexity / 10` is written `mkRat`,
so that the definition evaluates by kernel reduction;
`calculate_complexity_eq_min` identifies it with `min` of the quotient. -/
def calculate_complexity (tree : PyNode) : ℚ :=
  if mkRat (complexityRaw tree) 10 ≤ 1 then mkRat (complexityRaw tree) 10 else 1

/-- Is the node a loop construct or a conditional: `ast.For`, `ast.While`
or `ast.If`? -/
def isControlNode : PyNode → Bool
  | .forNode _ => true
  | .whileNode _ => true
  | .ifNode _ => true
  | _ => false

/-- Is the node an `ast.FunctionDef`? -/
def isFunctionDefNode : PyNode → Bool
  | .functionDef _ _ => true
  | _ => false

/-- The weighted node count the spec describes: loops plus conditionals
plus twice the function definitions, over all nodes of the tree. -/
def weightedNodeCount (tree : PyNode) : Nat :=
  (walk tree).countP isControlNode + 2 * (walk tree).countP isFunctionDefNode

/-- A function definition the misconception heuristic reports: no
`ast.Return` anywhere below it and a name other than `__init__`. -/
def isOffendingDef : PyNode → Bool
  | .functionDef fname cs =>
      !((walk (.functionDef fname cs)).any isReturnNode) && fname != "__init__"
  | _ => false

/-- The entry the syntax-issue heuristic emits for the 0-indexed line
`p.1` with text `p.2`, when the line qualifies: it holds a `=` character,
holds neither `==` nor `!=`, and holds the substring `"if "`. -/
def syntaxIssueEntry (p : Nat × String) : Option String :=
  if pyIn "=" p.2 && !(pyIn "==" p.2) && !(pyIn "!=" p.2) then
    if pyIn "if " p.2 then
      some ("Line " ++ toString (p.1 + 1) ++ ": Possible assignment in condition")
    else none
  else none

/-- `BasicPythonAnalyzer._check_syntax_issues`: scan the raw text line by
line (`enumerate(lines, 1)`); a line with a `=` character but neither
`==` nor `!=`, that also holds the substring `"if "`, contributes
`"Line {i}: Possible assignment in condition"`. -/
def check_syntax_issues (code : String) : List String :=
  (pyLines code).enum.foldl
    (fun issues p =>
      if pyIn "=" p.2 && !(pyIn "==" p.2) && !(pyIn "!=" p.2) then
        if pyIn "if " p.2 then
          issues ++ ["Line " ++ toString (p.1 + 1) ++ ": Possible assignment in condition"]
        else issues
      else issues)
    []

/-- `BasicPythonAnalyzer._detect_common_misconceptions`: for every
`ast.FunctionDef` in `ast.walk(tree)` that has no `ast.Return` anywhere in
`ast.walk(node)` and whose name is not `__init__`, append one fixed
string. -/
def detect_common_misconceptions (tree : PyNode) : List String :=
  (walk tree).foldl
    (fun acc node =>
      match node with
      | .functionDef fname cs =>
          if !((walk (.functionDef fname cs)).any isReturnNode) && fname != "__init__" then
            acc ++ ["Function may be missing return statement"]
          else acc
      | _ => acc)
    []

/-- The dataclass `CodeAnalysisResult`. -/
structure CodeAnalysisResult where
  syntax_errors : List String
  logical_issues : List String
  misconceptions : List String
  complexity_score : ℚ
  confidence : ℚ
deriving DecidableEq

/-- The error `BasicPythonAnalyzer.analyze` actually raises on the parse
failure path: the local variable `complexity` is assigned only inside the
`try` block, so the `return CodeAnalysisResult(...)` that follows the
`except SyntaxError` handler reads an unassigned local (Python
`UnboundLocalError`), after the handler has appended its
`"Syntax error: {message}"` entry to a list that is then discarded. -/
def unboundLocalComplexity : String :=
  "UnboundLocalError: local variable complexity referenced before assignment"

/-- `BasicPythonAnalyzer.analyze`.  `parsed` is the outcome of the external
`ast.parse(code)` call (see the header note).  On a successful parse the
three analyses run and the result dataclass is returned with
`confidence = 0.8`.  On a parse failure the source appends
`"Syntax error: {message}"` to `syntax_errors` and then falls through to
the same `return CodeAnalysisResult(..., complexity_score=complexity, ...)`;
since `complexity` was never assigned on this path, Python raises
`UnboundLocalError` there, embedded as `Except.error`. -/
def analyze (parsed : Except String PyNode) (code : String) :
    Except String CodeAnalysisResult :=
  match parsed with
  | Except.ok tree =>
      Except.ok
        { syntax_errors := check_syntax_issues code
          logical_issues := []
          misconceptions := detect_common_misconceptions tree
          complexity_score := calculate_complexity tree
          confidence := mkRat 4 5 }
  | Except.error _ =>
      Except.error unboundLocalComplexity

/-- The dataclass `GeneratedPrompt`. -/
structure GeneratedPrompt where
  text : String
  category : String
  difficulty_level : Nat
  learning_objective : String
deriving DecidableEq

/-- Rule 1's fixed prompt (`syntax_errors` non-empty). -/
def syntaxIssuesPrompt : GeneratedPrompt :=
  { text := "Look at your code structure. Can you identify any syntax issues? What might Python be expecting differently?"
    category := "debugging"
    difficulty_level := 2
    learning_objective := "Syntax error identification and resolution" }

/-- Rule 2's fixed prompt (`"assignment in condition"` in
`str(analysis.syntax_errors)`). -/
def assignmentEqualityPrompt : GeneratedPrompt :=
  { text := "In your conditional statement, consider the difference between assignment (=) and comparison (==). Which operation do you intend to perform?"
    category := "conceptual"
    difficulty_level := 3
    learning_objective := "Understanding assignment vs equality operators" }

/-- Rule 3's fixed prompt (`"missing return statement"` in
`str(analysis.misconceptions)`). -/
def returnValuePrompt : GeneratedPrompt :=
  { text := "Think about what your function should give back to the caller. What value or result should it return?"
    category := "conceptual"
    difficulty_level := 3
    learning_objective := "Function return values and program flow" }

/-- Rule 4's fixed prompt (`complexity_score > 0.5`). -/
def logicFlowPrompt : GeneratedPrompt :=
  { text := "Your solution shows good complexity. Can you explain the logic flow? How would you trace through it step by step?"
    category := "extension"
    difficulty_level := 4
    learning_objective := "Algorithm analysis and explanation" }

/-- `RuleBasedPromptGenerator.generate_prompts`: four independent rules,
each appending its fixed prompt to the running list.  `if analysis.syntax_errors:`
is Python list truthiness, i.e. non-emptiness; the rule-4 threshold `0.5`
is written `mkRat 1 2` (the float literal `0.5` is exact). -/
def generate_prompts (code : String) (analysis : CodeAnalysisResult) :
    List GeneratedPrompt :=
  let prompts : List GeneratedPrompt := []
  let prompts := if analysis.syntax_errors ≠ [] then prompts ++ [syntaxIssuesPrompt] else prompts
  let prompts := if pyIn "assignment in condition" (pyStrOfList analysis.syntax_errors) then
      prompts ++ [assignmentEqualityPrompt] else prompts
  let prompts := if pyIn "missing return statement" (pyStrOfList analysis.misconceptions) then
      prompts ++ [returnValuePrompt] else prompts
  let prompts := if analysis.complexity_score > mkRat 1 2 then prompts ++ [logicFlowPrompt] else prompts
  prompts

/-- The `"summary"` sub-dictionary of the report. -/
structure ReportSummary where
  total_prompts : Nat
  categories : List String
  avg_difficulty : ℚ
deriving DecidableEq

/-- The report dictionary returned by `evaluate_student_code`.  The
`"generated_prompts"` entry flattens each prompt to four fields in order;
the flattening is a bijective re-labelling, so the prompt list itself is
kept. -/
structure EvaluationReport where
  code : String
  analysis : CodeAnalysisResult
  generated_prompts : List GeneratedPrompt
  summary : ReportSummary
deriving DecidableEq

/-- `CompetenceEvaluator.evaluate_student_code`: analyze, generate, then
assemble the report.  `categories` embeds Python `list(set(...))`: the set
of distinct category tags, here materialised in first-occurrence order
(CPython's set iteration order is unspecified; the spec calls the field an
unordered set).  `avg_difficulty` is true division, `0` on an empty prompt
list.  An exception from `analyze` propagates. -/
def evaluate_student_code (parsed : Except String PyNode) (code : String) :
    Except String EvaluationReport :=
  match analyze parsed code with
  | Except.error e => Except.error e
  | Except.ok analysis =>
      let prompts := generate_prompts code analysis
      Except.ok
        { code := code
          analysis := analysis
          generated_prompts := prompts
          summary :=
            { total_prompts := prompts.length
              categories := (prompts.map GeneratedPrompt.category).dedup
              avg_difficulty :=
                if prompts ≠ [] then
                  mkRat (prompts.map GeneratedPrompt.difficulty_level).sum prompts.length
                else 0 } }

/-- The first demonstration snippet of `demonstrate_evaluation`, after the
driver's `.strip()`: `check_number` with `if x = 5:`.  Real Python fails to
parse it (`SyntaxError`), so the pipeline receives `Except.error` with the
parser's diagnostic. -/
def sample1Code : String :=
  "def check_number(x):\n    if x = 5:\n        return \"equal\"\n    else:\n        return \"not equal\""

/-- The third demonstration snippet, after the driver's `.strip()`:
the recursive `fibonacci` function. -/
def fibCode : String :=
  "def fibonacci(n):\n    if n <= 1:\n        return n\n    else:\n        return fibonacci(n-1) + fibonacci(n-2)"

/-- The parse tree `ast.parse` produces for `fibCode`, abstracted to
`PyNode`:
`Module` holding one `FunctionDef fibonacci`, whose children are its
`arguments` (holding `arg n`) and one `If`; the `If` holds the test
`Compare(Name n, LtE, Constant 1)`, the body `Return (Name n)` and the
orelse `Return (BinOp (Call fibonacci (BinOp n Sub 1)) Add (Call fibonacci
(BinOp n Sub 2)))`.  Nodes other than the definition, the conditional and
the two returns are `other`. -/
def fibTree : PyNode :=
  .other [
    .functionDef "fibonacci" [
      .other [.other []],
      .ifNode [
        .other [.other [], .other [], .other []],
        .returnNode [.other []],
        .returnNode [
          .other [
            .other [.other [], .other [.other [], .other [], .other []]],
            .other [],
            .other [.other [], .other [.other [], .other [], .other []]]]]]]]

/-- The report the embedded pipeline produces for the fibonacci sample:
the line `    if n <= 1:` trips the textual heuristic (its `<=` holds a
`=` character, the line holds neither `==` nor `!=`, and it holds
`"if "`), so rules 1 and 2 both fire. -/
def fibReport : EvaluationReport :=
  { code := fibCode
    analysis :=
      { syntax_errors := ["Line 2: Possible assignment in condition"]
        logical_issues := []
        misconceptions := []
        complexity_score := mkRat 3 10
        confidence := mkRat 4 5 }
    generated_prompts := [syntaxIssuesPrompt, assignmentEqualityPrompt]
    summary :=
      { total_prompts := 2
        categories := ["debugging", "conceptual"]
        avg_difficulty := mkRat 5 2 } }

/-- The analysis the analyzer returns for the empty source text and a
bare `Module` parse tree: no findings, score `0`, confidence `0.8`. -/
def emptyAnalysis : CodeAnalysisResult :=
  { syntax_errors := []
    logical_issues := []
    misconceptions := []
    complexity_score := 0
    confidence := mkRat 4 5 }

/-- The report the pipeline produces for the empty source text: no prompts,
so the summary mean is the guarded `0`. -/
def reportEmpty : EvaluationReport :=
  { code := ""
    analysis := emptyAnalysis
    generated_prompts := []
    summary := { total_prompts := 0, categories := [], avg_difficulty := 0 } }

/-- A one-line input whose single line trips the syntax-issue heuristic. -/
def oneLineCode : String := "if x = 1:"

/-- The analysis for `oneLineCode` under a bare `Module` parse tree. -/
def oneLineAnalysis : CodeAnalysisResult :=
  { syntax_errors := ["Line 1: Possible assignment in condition"]
    logical_issues := []
    misconceptions := []
    complexity_score := 0
    confidence := mkRat 4 5 }

/-- A parse tree holding one function definition with no body nodes at
all, hence no `ast.Return`: the misconception heuristic reports it. -/
def offendingTree : PyNode := .functionDef "calculate_sum" []

/-- The analysis for the empty source text under `offendingTree`. -/
def offendingAnalysis : CodeAnalysisResult :=
  { syntax_errors := []
    logical_issues := []
    misconceptions := ["Function may be missing return statement"]
    complexity_score := mkRat 2 10
    confidence := mkRat 4 5 }

/-- An analysis result whose `syntax_errors` rendering holds the phrase
`"assignment in condition"`. -/
def assignmentAnalysis : CodeAnalysisResult :=
  { syntax_errors := ["Line 2: Possible assignment in condition"]
    logical_issues := []
    misconceptions := []
    complexity_score := 0
    confidence := mkRat 4 5 }

/-! ## General lemmas about the embedded operations -/

theorem mkRat_nat_div (n : Nat) (d : Nat) : (mkRat n d : ℚ) = (n : ℚ) / (d : ℚ) := by
  rw [Rat.mkRat_eq_div]
  norm_num

theorem calculate_complexity_eq_min (tree : PyNode) :
    calculate_complexity tree = min ((complexityRaw tree : ℚ) / 10) 1 := by
  rw [calculate_complexity, min_def, mkRat_nat_div]
  norm_num

theorem foldl_complexityStep (l : List PyNode) (acc : Nat) :
    l.foldl complexityStep acc =
      acc + l.countP isControlNode + 2 * l.countP isFunctionDefNode := by
  induction l generalizing acc with
  | nil => simp
  | cons n ns ih =>
    rw [List.foldl_cons, ih]
    cases n <;>
      simp [complexityStep, isControlNode, isFunctionDefNode, List.countP_cons] <;>
      omega

theorem complexityRaw_eq_weighted (tree : PyNode) :
    complexityRaw tree = weightedNodeCount tree := by
  rw [complexityRaw, weightedNodeCount, foldl_complexityStep]
  omega

theorem check_foldl_filterMap (l : List (Nat × String)) (acc : List String) :
    l.foldl
        (fun issues p =>
          if pyIn "=" p.2 && !(pyIn "==" p.2) && !(pyIn "!=" p.2) then
            if pyIn "if " p.2 then
              issues ++ ["Line " ++ toString (p.1 + 1) ++ ": Possible assignment in condition"]
            else issues
          else issues)
        acc
      = acc ++ l.filterMap syntaxIssueEntry := by
  induction l generalizing acc with
  | nil => simp
  | cons p ps ih =>
    rw [List.foldl_cons, List.filterMap_cons]
    simp only [ih]
    by_cases h1 : (pyIn "=" p.2 && !(pyIn "==" p.2) && !(pyIn "!=" p.2)) = true
    · by_cases h2 : pyIn "if " p.2 = true
      · simp [syntaxIssueEntry, h1, h2]
      · simp [syntaxIssueEntry, h1, h2]
    · simp [syntaxIssueEntry, h1]

theorem check_syntax_issues_eq (code : String) :
    check_syntax_issues code = (pyLines code).enum.filterMap syntaxIssueEntry := by
  rw [check_syntax_issues, check_foldl_filterMap]
  simp

theorem detect_foldl_replicate (l : List PyNode) (acc : List String) :
    l.foldl
        (fun acc node =>
          match node with
          | .functionDef fname cs =>
              if !((walk (.functionDef fname cs)).any isReturnNode) && fname != "__init__" then
                acc ++ ["Function may be missing return statement"]
              else acc
          | _ => acc)
        acc
      = acc ++ List.replicate (l.countP isOffendingDef) "Function may be missing return statement" := by
  induction l generalizing acc with
  | nil => simp
  | cons n ns ih =>
    rw [List.foldl_cons]
    simp only [ih]
    cases n with
    | functionDef fname cs =>
      by_cases h : (!((walk (.functionDef fname cs)).any isReturnNode) && fname != "__init__") = true
      · simp [h, isOffendingDef, List.countP_cons, List.replicate_succ]
      · simp [h, isOffendingDef, List.countP_cons]
    | forNode cs => simp [isOffendingDef, List.countP_cons]
    | whileNode cs => simp [isOffendingDef, List.countP_cons]
    | ifNode cs => simp [isOffendingDef, List.countP_cons]
    | returnNode cs => simp [isOffendingDef, List.countP_cons]
    | other cs => simp [isOffendingDef, List.countP_cons]

theorem detect_common_misconceptions_eq (tree : PyNode) :
    detect_common_misconceptions tree =
      List.replicate ((walk tree).countP isOffendingDef)
        "Function may be missing return statement" := by
  rw [detect_common_misconceptions, detect_foldl_replicate]
  simp

theorem analyze_ok_inv (code : String) (tree : PyNode) (r : CodeAnalysisResult)
    (h : analyze (Except.ok tree) code = Except.ok r) :
    r = { syntax_errors := check_syntax_issues code
          logical_issues := []
          misconceptions := detect_common_misconceptions tree
          complexity_score := calculate_complexity tree
          confidence := mkRat 4 5 } := by
  have h' : Except.ok (ε := String)
      { syntax_errors := check_syntax_issues code
        logical_issues := []
        misconceptions := detect_common_misconceptions tree
        complexity_score := calculate_complexity tree
        confidence := mkRat 4 5 } = Except.ok r := h
  injection h' with h''
  exact h''.symm

theorem generate_prompts_eq (code : String) (a : CodeAnalysisResult) :
    generate_prompts code a =
      (if a.syntax_errors ≠ [] then [syntaxIssuesPrompt] else []) ++
      (if pyIn "assignment in condition" (pyStrOfList a.syntax_errors) then
        [assignmentEqualityPrompt] else []) ++
      (if pyIn "missing return statement" (pyStrOfList a.misconceptions) then
        [returnValuePrompt] else []) ++
      (if a.complexity_score > mkRat 1 2 then [logicFlowPrompt] else []) := by
  unfold generate_prompts
  split_ifs <;> simp

/-! ## The claims -/

/-- C1: the claim states that for every input string that fails to parse,
`analyze` returns normally with exactly one `"Syntax error: {message}"`
entry, empty misconceptions, `complexity_score = 0.0` and
`confidence = 0.8`.  The code does not: `complexity` is assigned only
inside the `try` block, so the `return CodeAnalysisResult(...)` reached
after the `except SyntaxError` handler reads an unassigned local and
Python raises `UnboundLocalError` on every parse failure.  This theorem
evaluates the embedded failure path: `analyze` propagates the exception
instead of returning a result. -/
theorem analyze_parse_failure_raises (code msg : String) :
    analyze (Except.error msg) code = Except.error unboundLocalComplexity := rfl

/-- C2: the claim states that for the first sample snippet (`check_number`
with `if x = 5:`, which does not parse) the pipeline reports one
parse-failure syntax error, no misconceptions, and exactly the rule-1
debugging prompt.  Because `analyze` raises `UnboundLocalError` on every
parse failure (the `complexity` local is unassigned on that path), the
pipeline propagates the exception instead: no report and no prompts are
produced, whatever diagnostic the parser gave; the driver's catch-all
prints the error. -/
theorem evaluate_sample1_raises (msg : String) :
    evaluate_student_code (Except.error msg) sample1Code =
      Except.error unboundLocalComplexity := rfl

/-- C3 counterexample: the claim asserts that the fibonacci sample yields
zero prompts.  In fact the line `    if n <= 1:` holds a `=` character
(inside `<=`), holds neither `==` nor `!=`, and holds `"if "`, so the
textual heuristic emits an entry, rules 1 and 2 both fire, and the prompt
list is non-empty. -/
theorem fib_sample_prompts_nonzero :
    evaluate_student_code (Except.ok fibTree) fibCode = Except.ok fibReport ∧
    fibReport.generated_prompts ≠ [] :=
  ⟨by decide, by decide⟩

/-- C3 amended: for the fibonacci sample the complexity score is exactly
`3 / 10` (1 for the conditional plus 2 for the definition, divided by 10),
but the generator emits exactly two prompts — the rule-1 debugging prompt
and the rule-2 assignment-vs-equality prompt — because the `<=` on line 2
trips the textual assignment-in-condition heuristic. -/
theorem fib_sample_amended :
    evaluate_student_code (Except.ok fibTree) fibCode = Except.ok fibReport ∧
    fibReport.analysis.complexity_score = (3 : ℚ) / 10 ∧
    fibReport.generated_prompts = [syntaxIssuesPrompt, assignmentEqualityPrompt] := by
  refine ⟨by decide, ?_, by decide⟩
  show (mkRat 3 10 : ℚ) = (3 : ℚ) / 10
  norm_num [Rat.mkRat_eq_div]

/-- C4: for every code string and every analysis result,
`generate_prompts` returns exactly the subsequence of the four fixed
prompts in rule-table order 1 → 2 → 3 → 4, each rule evaluated
independently: rule 1 fires iff `syntax_errors` is non-empty; rule 2 iff
`"assignment in condition"` occurs in the string-rendering of the whole
`syntax_errors` collection; rule 3 iff `"missing return statement"`
occurs in the string-rendering of the whole `misconceptions` collection;
rule 4 iff `complexity_score` exceeds `0.5` (written `mkRat 1 2`). -/
theorem generate_prompts_rule_table (code : String) (a : CodeAnalysisResult) :
    generate_prompts code a =
      (if a.syntax_errors ≠ [] then [syntaxIssuesPrompt] else []) ++
      (if pyIn "assignment in condition" (pyStrOfList a.syntax_errors) then
        [assignmentEqualityPrompt] else []) ++
      (if pyIn "missing return statement" (pyStrOfList a.misconceptions) then
        [returnValuePrompt] else []) ++
      (if a.complexity_score > mkRat 1 2 then [logicFlowPrompt] else []) :=
  generate_prompts_eq code a

/-- C5: for every input that parses successfully, the returned
`complexity_score` equals `min(rawCount / 10, 1)` where `rawCount` adds 1
per loop or conditional node and 2 per function-definition node; with zero
such nodes the score is `0`. -/
theorem analyze_success_complexity_formula (code : String) (tree : PyNode)
    (r : CodeAnalysisResult) (h : analyze (Except.ok tree) code = Except.ok r) :
    r.complexity_score = min ((weightedNodeCount tree : ℚ) / 10) 1 ∧
    (weightedNodeCount tree = 0 → r.complexity_score = 0) := by
  rw [analyze_ok_inv code tree r h]
  constructor
  · show calculate_complexity tree = _
    rw [calculate_complexity_eq_min, complexityRaw_eq_weighted]
  · intro h0
    show calculate_complexity tree = 0
    rw [calculate_complexity_eq_min, complexityRaw_eq_weighted, h0]
    norm_num

/-- Witness for the C5 theorem at the empty source and a bare module
node. -/
theorem analyze_success_complexity_formula_witness :
    emptyAnalysis.complexity_score =
      min ((weightedNodeCount (PyNode.other []) : ℚ) / 10) 1 ∧
    (weightedNodeCount (PyNode.other []) = 0 →
      emptyAnalysis.complexity_score = 0) :=
  analyze_success_complexity_formula "" (PyNode.other []) emptyAnalysis (by decide)

/-- C6: on every successful parse, `syntax_errors` holds exactly the
entries `"Line {n}: Possible assignment in condition"` for the 1-indexed
lines that hold a `=` character, hold neither `==` nor `!=`, and hold the
substring `"if "` — in line order, and nothing else. -/
theorem analyze_success_syntax_issue_lines (code : String) (tree : PyNode)
    (r : CodeAnalysisResult) (h : analyze (Except.ok tree) code = Except.ok r) :
    r.syntax_errors = (pyLines code).enum.filterMap syntaxIssueEntry := by
  rw [analyze_ok_inv code tree r h]
  exact check_syntax_issues_eq code

/-- Witness for the C6 theorem at a one-line input that trips the
heuristic. -/
theorem analyze_success_syntax_issue_lines_witness :
    oneLineAnalysis.syntax_errors =
      (pyLines oneLineCode).enum.filterMap syntaxIssueEntry :=
  analyze_success_syntax_issue_lines oneLineCode (PyNode.other []) oneLineAnalysis
    (by decide)

/-- C7: on every successful parse, `misconceptions` is exactly one
occurrence of `"Function may be missing return statement"` per function
definition node whose name is not `__init__` and that has no return
statement among its descendants — the identical string repeated once per
offending function, and nothing else. -/
theorem analyze_success_missing_return (code : String) (tree : PyNode)
    (r : CodeAnalysisResult) (h : analyze (Except.ok tree) code = Except.ok r) :
    r.misconceptions =
      List.replicate ((walk tree).countP isOffendingDef)
        "Function may be missing return statement" := by
  rw [analyze_ok_inv code tree r h]
  exact detect_common_misconceptions_eq tree

/-- Witness for the C7 theorem at a single return-less function. -/
theorem analyze_success_missing_return_witness :
    offendingAnalysis.misconceptions =
      List.replicate ((walk offendingTree).countP isOffendingDef)
        "Function may be missing return statement" :=
  analyze_success_missing_return "" offendingTree offendingAnalysis (by decide)

/-- C8: for every evaluation that produces a report, the summary's
`total_prompts` equals the number of generated prompts, `categories`
equals (as a set) the distinct category tags among them, and
`avg_difficulty` is the arithmetic mean of their difficulty levels when
the prompt list is non-empty and `0` when it is empty. -/
theorem evaluate_report_summary (parsed : Except String PyNode) (code : String)
    (report : EvaluationReport)
    (h : evaluate_student_code parsed code = Except.ok report) :
    report.summary.total_prompts = report.generated_prompts.length ∧
    (∀ c, c ∈ report.summary.categories ↔
      c ∈ report.generated_prompts.map GeneratedPrompt.category) ∧
    (report.generated_prompts ≠ [] →
      report.summary.avg_difficulty =
        ((report.generated_prompts.map GeneratedPrompt.difficulty_level).sum : ℚ) /
          (report.generated_prompts.length : ℚ)) ∧
    (report.generated_prompts = [] → report.summary.avg_difficulty = 0) := by
  cases hp : analyze parsed code with
  | error e =>
    exact absurd h (by rw [evaluate_student_code, hp]; exact fun hc => Except.noConfusion hc)
  | ok analysis =>
    have h' : Except.ok (ε := String)
        { code := code
          analysis := analysis
          generated_prompts := generate_prompts code analysis
          summary :=
            { total_prompts := (generate_prompts code analysis).length
              categories :=
                ((generate_prompts code analysis).map GeneratedPrompt.category).dedup
              avg_difficulty :=
                if generate_prompts code analysis ≠ [] then
                  mkRat ((generate_prompts code analysis).map GeneratedPrompt.difficulty_level).sum
                    (generate_prompts code analysis).length
                else 0 } } = Except.ok report := by
      rw [← h, evaluate_student_code, hp]
    injection h' with h''
    rw [← h'']
    refine ⟨rfl, fun c => List.mem_dedup, ?_, ?_⟩
    · intro hne
      show (if generate_prompts code analysis ≠ [] then
          mkRat ((generate_prompts code analysis).map GeneratedPrompt.difficulty_level).sum
            (generate_prompts code analysis).length
        else 0) = _
      rw [if_pos hne, mkRat_nat_div]
    · intro he
      show (if generate_prompts code analysis ≠ [] then
          mkRat ((generate_prompts code analysis).map GeneratedPrompt.difficulty_level).sum
            (generate_prompts code analysis).length
        else 0) = 0
      rw [if_neg (not_not_intro he)]

/-- Witness for the C8 theorem at the empty source, where no prompt fires
and the mean is the guarded `0`. -/
theorem evaluate_report_summary_witness :
    reportEmpty.summary.total_prompts = reportEmpty.generated_prompts.length ∧
    ("debugging" ∈ reportEmpty.summary.categories ↔
      "debugging" ∈ reportEmpty.generated_prompts.map GeneratedPrompt.category) ∧
    reportEmpty.summary.avg_difficulty = 0 :=
  ⟨(evaluate_report_summary (Except.ok (PyNode.other [])) "" reportEmpty (by decide)).1,
    (evaluate_report_summary (Except.ok (PyNode.other [])) "" reportEmpty (by decide)).2.1
      "debugging",
    (evaluate_report_summary (Except.ok (PyNode.other [])) "" reportEmpty (by decide)).2.2.2
      (by decide)⟩

/-- C9: the complexity score is monotonically non-decreasing in the
weighted node count (loops + conditionals + 2 × definitions), and always
lies in the closed interval `[0, 1]`. -/
theorem complexity_monotone_and_bounded :
    (∀ a b : PyNode, weightedNodeCount a ≤ weightedNodeCount b →
      calculate_complexity a ≤ calculate_complexity b) ∧
    (∀ t : PyNode, 0 ≤ calculate_complexity t ∧ calculate_complexity t ≤ 1) := by
  constructor
  · intro a b hab
    rw [calculate_complexity_eq_min, calculate_complexity_eq_min,
        complexityRaw_eq_weighted, complexityRaw_eq_weighted]
    have hq : (weightedNodeCount a : ℚ) ≤ (weightedNodeCount b : ℚ) := by
      exact_mod_cast hab
    apply min_le_min _ le_rfl
    gcongr
  · intro t
    rw [calculate_complexity_eq_min]
    exact ⟨le_min (by positivity) (by norm_num), min_le_right _ _⟩

/-- Witness for the C9 theorem: a bare module versus a single conditional,
and the bounds at the single conditional. -/
theorem complexity_monotone_and_bounded_witness :
    (weightedNodeCount (PyNode.other []) ≤ weightedNodeCount (PyNode.ifNode []) ∧
      calculate_complexity (PyNode.other []) ≤ calculate_complexity (PyNode.ifNode [])) ∧
    (0 ≤ calculate_complexity (PyNode.ifNode []) ∧
      calculate_complexity (PyNode.ifNode []) ≤ 1) :=
  ⟨⟨by decide,
      complexity_monotone_and_bounded.1 (PyNode.other []) (PyNode.ifNode []) (by decide)⟩,
    complexity_monotone_and_bounded.2 (PyNode.ifNode [])⟩

/-- C10: whenever the rule-2 assignment-vs-equality condition holds — the
phrase `"assignment in condition"` occurs in the string-rendering of
`syntax_errors` — the collection is necessarily non-empty, so rule 1 also
fires, and the output starts with the rule-1 debugging prompt followed by
the rule-2 conceptual prompt. -/
theorem rule2_implies_rule1 (code : String) (a : CodeAnalysisResult)
    (h : pyIn "assignment in condition" (pyStrOfList a.syntax_errors) = true) :
    a.syntax_errors ≠ [] ∧
    (generate_prompts code a).take 2 = [syntaxIssuesPrompt, assignmentEqualityPrompt] := by
  have hne : a.syntax_errors ≠ [] := by
    intro hnil
    rw [hnil] at h
    exact absurd h (by decide)
  refine ⟨hne, ?_⟩
  rw [generate_prompts_eq, if_pos hne, if_pos h]
  simp

/-- Witness for the C10 theorem at an analysis holding one heuristic
entry. -/
theorem rule2_implies_rule1_witness :
    pyIn "assignment in condition" (pyStrOfList assignmentAnalysis.syntax_errors) = true ∧
    (assignmentAnalysis.syntax_errors ≠ [] ∧
      (generate_prompts "" assignmentAnalysis).take 2 =
        [syntaxIssuesPrompt, assignmentEqualityPrompt]) :=
  ⟨by decide, rule2_implies_rule1 "" assignmentAnalysis (by decide)⟩
